import Mathlib

/-!
# Verification of the mockmox resource catalog

Shallow embedding of the filesystem-backed template/group/instance model of
the mockmox repository (`src/classes/vm_template.py`, `src/classes/group.py`,
`src/classes/instances.py`, and the earlier variant `src/classes.py`), and
proofs about the behaviour of its operations.

The filesystem is modelled as a finite association list from absolute paths
(lists of path segments) to nodes (directories, regular files with content
and metadata, symbolic links).  Python exceptions are modelled by an error
type whose constructors carry the structured data the exception messages are
built from.  External collaborators (the YAML parser, qemu-img, libvirt, the
interactive editor, the wall clock) are modelled as explicit parameters.
-/

namespace Mockmox

/-- Parsed YAML documents, as produced by `yaml.safe_load`. -/
inductive Yaml where
  | null : Yaml
  | bool (b : Bool) : Yaml
  | int (n : Int) : Yaml
  | str (s : String) : Yaml
  | list (xs : List Yaml) : Yaml
  | dict (entries : List (String × Yaml)) : Yaml
  deriving Repr, Inhabited

/-- Python `dict.get(key)` on the entry list of a YAML mapping:
the value of the first entry with the given key, if any. -/
def yamlGet (entries : List (String × Yaml)) (key : String) : Option Yaml :=
  (entries.find? (fun e => e.1 == key)).map (fun e => e.2)

/-- Python exceptions raised by the code under `src/`.  Each constructor
carries the structured data its message is formatted from; the surrounding
literal text of the message is abstracted to a tag string. -/
inductive PyErr where
  | fileNotFoundError (msg : String) : PyErr
  | fileExistsError (msg : String) (refs : List String) : PyErr
  | valueError (msg : String) : PyErr
  | yamlError (msg : String) : PyErr
  | attributeError (msg : String) : PyErr
  | typeError (msg : String) : PyErr
  | calledProcessError (msg : String) : PyErr
  | libvirtError (msg : String) : PyErr
  deriving Repr, DecidableEq

/-- A filesystem path: the list of its segments from the filesystem root. -/
abbrev FsPath := List String

/-- A filesystem node: a directory, a regular file (content plus a natural
number standing for its metadata, e.g. its mtime), or a symbolic link. -/
inductive Node where
  | dir : Node
  | file (content : String) (meta : Nat) : Node
  | symlink (target : FsPath) : Node
  deriving Repr, DecidableEq

/-- A filesystem: a finite association list from absolute paths to nodes. -/
abbrev FS := List (FsPath × Node)

/-- The node stored at a path, if any. -/
def fsFind (fs : FS) (p : FsPath) : Option Node :=
  (fs.find? (fun e => e.1 == p)).map (fun e => e.2)

/-- Python `pathlib.Path.exists`: a node is stored at the path. -/
def fsPathExists (fs : FS) (p : FsPath) : Bool :=
  (fsFind fs p).isSome

/-- Remove the entry at a path (`Path.unlink`). -/
def fsErase (fs : FS) (p : FsPath) : FS :=
  fs.filter (fun e => e.1 != p)

/-- Store a node at a path, replacing any previous entry. -/
def fsSet (fs : FS) (p : FsPath) (n : Node) : FS :=
  fsErase fs p ++ [(p, n)]

/-- Python `shutil.rmtree`: remove the entry at the path and every entry below it. -/
def fsRmtree (fs : FS) (p : FsPath) : FS :=
  fs.filter (fun e => !(List.isPrefixOf p e.1))

/-- Python `pathlib.Path.iterdir`: the paths lying directly below the given path. -/
def fsIterdir (fs : FS) (p : FsPath) : List FsPath :=
  (fs.map (fun e => e.1)).filter
    (fun q => q.length == p.length + 1 && List.isPrefixOf p q)

/-- Python `pathlib.Path.rglob` with pattern `*`: every path strictly below the
given path, in store order (the source visits parents before children; the
operations performed per entry do not depend on the order). -/
def fsDescendants (fs : FS) (p : FsPath) : List FsPath :=
  (fs.map (fun e => e.1)).filter (fun q => p != q && List.isPrefixOf p q)

/-- One step of symlink resolution, iterated `k` times. -/
def fsResolveN : Nat → FS → FsPath → FsPath
  | 0, _, p => p
  | k + 1, fs, p =>
    match fsFind fs p with
    | some (Node.symlink t) => fsResolveN k fs t
    | _ => p

/-- Python `pathlib.Path.resolve` on an existing path: follow symbolic links to the
real path.  On a path that is not a symlink this is the identity. -/
def fsResolve (fs : FS) (p : FsPath) : FsPath :=
  fsResolveN fs.length fs p

/-- Python `Path.mkdir(parents=True, exist_ok=True)`: create the directory and any
missing ancestors, leaving already-present entries in place. -/
def fsMkdirParents (fs : FS) (p : FsPath) : FS :=
  ((List.range p.length).map (fun k => p.take (k + 1))).foldl
    (fun acc q => if fsPathExists acc q then acc else fsSet acc q Node.dir) fs

theorem fsFind_cons (e : FsPath × Node) (t : FS) (p : FsPath) :
    fsFind (e :: t) p = if e.1 = p then some e.2 else fsFind t p := by
  by_cases h : e.1 = p
  · simp [fsFind, List.find?_cons_of_pos, h]
  · have hb : (e.1 == p) = false := beq_eq_false_iff_ne.mpr h
    simp [fsFind, List.find?_cons_of_neg, hb, h]

theorem fsFind_erase_self (fs : FS) (p : FsPath) : fsFind (fsErase fs p) p = none := by
  induction fs with
  | nil => rfl
  | cons e t ih =>
    by_cases h : e.1 = p
    · simpa [fsErase, List.filter_cons, h] using ih
    · have hb : (e.1 != p) = true := by simp [bne_iff_ne, h]
      simpa [fsErase, List.filter_cons, hb, fsFind_cons, h] using ih

theorem fsFind_erase_ne (fs : FS) (p q : FsPath) (h : q ≠ p) :
    fsFind (fsErase fs p) q = fsFind fs q := by
  induction fs with
  | nil => rfl
  | cons e t ih =>
    by_cases h1 : e.1 = p
    · have h2 : e.1 ≠ q := fun hh => h (hh ▸ h1 ▸ rfl)
      simpa [fsErase, List.filter_cons, h1, fsFind_cons, h2, h, Ne.symm h] using ih
    · have hb : (e.1 != p) = true := by simp [bne_iff_ne, h1]
      by_cases h2 : e.1 = q
      · simp [fsErase, List.filter_cons, hb, fsFind_cons, h2, h, Ne.symm h]
      · simpa [fsErase, List.filter_cons, hb, fsFind_cons, h2, h, Ne.symm h] using ih

theorem fsFind_append (fs1 fs2 : FS) (p : FsPath) :
    fsFind (fs1 ++ fs2) p = ((fsFind fs1 p).orElse (fun _ => fsFind fs2 p)) := by
  induction fs1 with
  | nil => simp [fsFind]
  | cons e t ih =>
    by_cases h : e.1 = p
    · simp [List.cons_append, fsFind_cons, h]
    · simpa [List.cons_append, fsFind_cons, h] using ih

theorem fsFind_set_self (fs : FS) (p : FsPath) (n : Node) :
    fsFind (fsSet fs p n) p = some n := by
  rw [fsSet, fsFind_append, fsFind_erase_self]
  simp [fsFind_cons, fsFind]

theorem fsFind_set_ne (fs : FS) (p q : FsPath) (n : Node) (h : q ≠ p) :
    fsFind (fsSet fs p n) q = fsFind fs q := by
  rw [fsSet, fsFind_append, fsFind_erase_ne fs p q h]
  have h1 : fsFind [(p, n)] q = none := by
    simp [fsFind_cons, fsFind, Ne.symm h]
  rw [h1]
  cases fsFind fs q <;> rfl

theorem fsFind_rmtree_under (fs : FS) (p q : FsPath)
    (h : List.isPrefixOf p q = true) : fsFind (fsRmtree fs p) q = none := by
  induction fs with
  | nil => rfl
  | cons e t ih =>
    by_cases h1 : List.isPrefixOf p e.1
    · simpa [fsRmtree, List.filter_cons, h1] using ih
    · have h2 : e.1 ≠ q := by
        intro hh; rw [hh] at h1; exact h1 h
      simpa [fsRmtree, List.filter_cons, h1, fsFind_cons, h2] using ih

theorem fsFind_rmtree_outside (fs : FS) (p q : FsPath)
    (h : List.isPrefixOf p q = false) : fsFind (fsRmtree fs p) q = fsFind fs q := by
  induction fs with
  | nil => rfl
  | cons e t ih =>
    by_cases h1 : List.isPrefixOf p e.1
    · have h2 : e.1 ≠ q := by
        intro hh; rw [hh] at h1; rw [h1] at h; cases h
      simpa [fsRmtree, List.filter_cons, h1, fsFind_cons, h2] using ih
    · by_cases h2 : e.1 = q
      · simp [fsRmtree, List.filter_cons, h1, fsFind_cons, h2, h]
      · simpa [fsRmtree, List.filter_cons, h1, fsFind_cons, h2, h] using ih

theorem fsPathExists_iff_mem (fs : FS) (p : FsPath) :
    fsPathExists fs p = true ↔ p ∈ fs.map (fun e => e.1) := by
  induction fs with
  | nil =>
    constructor
    · intro h; exact Bool.noConfusion h
    · intro h; rw [List.map_nil] at h; cases h
  | cons e t ih =>
    by_cases h : e.1 = p
    · have h2 : fsPathExists (e :: t) p = true := by
        simp only [fsPathExists, fsFind_cons, if_pos h, Option.isSome_some]
      rw [h2, List.map_cons]
      constructor
      · intro _
        exact List.mem_cons.mpr (Or.inl h.symm)
      · intro _
        rfl
    · have hstep : fsPathExists (e :: t) p = fsPathExists t p := by
        simp only [fsPathExists, fsFind_cons, if_neg h]
      rw [hstep, List.map_cons, List.mem_cons, ih]
      constructor
      · exact Or.inr
      · rintro (hh | hh)
        · exact absurd hh.symm h
        · exact hh

/-- Python `pathlib.Path.read_text`, following a possible symlink to a regular file. -/
def fsReadText (fs : FS) (p : FsPath) : Option String :=
  match fsFind fs (fsResolve fs p) with
  | some (Node.file c _) => some c
  | _ => none

/-- Python `pathlib.Path.iterdir`, including the errors `pathlib` raises when the
path is missing or is not a directory. -/
def fsIterdirE (fs : FS) (p : FsPath) : Except PyErr (List FsPath) :=
  match fsFind fs p with
  | some Node.dir => Except.ok (fsIterdir fs p)
  | some _ => Except.error (PyErr.fileNotFoundError "NotADirectoryError")
  | none => Except.error (PyErr.fileNotFoundError "No such file or directory")

/-- Python `pathlib.Path.as_posix` for an absolute path. -/
def asPosix (p : FsPath) : String :=
  "/" ++ String.intercalate "/" p

/-- Python values occurring in the membership tests of this code base:
strings and `pathlib.Path` objects. -/
inductive PyVal where
  | str (s : String) : PyVal
  | path (p : FsPath) : PyVal

/-- CPython `==` between the values above.  A `str` never equals a
`pathlib.Path`: neither type implements the comparison for the other, so
`==` falls back to identity and returns `False`. -/
def pyEq : PyVal → PyVal → Bool
  | PyVal.str a, PyVal.str b => a == b
  | PyVal.path a, PyVal.path b => a == b
  | PyVal.str _, PyVal.path _ => false
  | PyVal.path _, PyVal.str _ => false

/-- CPython `v in xs`: some element of `xs` compares `==` to `v`. -/
def pyIn (v : PyVal) (xs : List PyVal) : Bool :=
  xs.any (fun x => pyEq v x)

theorem pyIn_str_path_list (s : String) (ps : List FsPath) :
    pyIn (PyVal.str s) (ps.map PyVal.path) = false := by
  induction ps with
  | nil => rfl
  | cons p t ih => simp [pyIn, pyEq, List.any_cons, ih]

/-! ## Template Store: `src/classes/vm_template.py` -/

/-- The global template directory entry for a template name
(`vm_template_dir / name`). -/
def templatePath (vm_template_dir : FsPath) (name : String) : FsPath :=
  vm_template_dir ++ [name]

/-- Source line `self.config_file = self.path / f"{self.name}_config.yaml"`. -/
def templateConfigFile (vm_template_dir : FsPath) (name : String) : FsPath :=
  templatePath vm_template_dir name ++ [name ++ "_config.yaml"]

/-- Source line `self.disk = self.path / f"{self.name}.qcow2"`. -/
def templateDisk (vm_template_dir : FsPath) (name : String) : FsPath :=
  templatePath vm_template_dir name ++ [name ++ ".qcow2"]

/-- The fields of a constructed `VMTemplate` object that the verified
operations read. -/
structure VMTemplate where
  name : String
  path : FsPath
  config_file : FsPath
  disk : FsPath
  config : Yaml
  ssh_port : Yaml

/-- Constructor `VMTemplate.__init__` (`src/classes/vm_template.py` lines 15-54).

All state is kept in the directory structure: when the template path does
not exist (or `delete` is passed) no check is performed and the config
stays the empty dict.  When the path exists, a missing disk image or
config file raises `FileNotFoundError`, and a config document that fails
to parse raises `yaml.YAMLError`.  Line 48 then reads
`self.config.get("ssh_port", 22)`, which raises `AttributeError` unless
the parsed document is a mapping.  The constructor only reads the
filesystem; it never writes (its result carries no filesystem).  The YAML
parser is the external `yaml.safe_load`, passed as `parse`. -/
def VMTemplate.loadConfig (parse : String → Except String Yaml) (fs : FS)
    (name : String) (path config_file disk : FsPath) (delete : Bool) :
    Except PyErr Yaml :=
  if fsPathExists fs path && !delete then
    if !(fsPathExists fs disk) then
      Except.error (PyErr.fileNotFoundError
        ("VM template " ++ name ++ " is missing its disk image."))
    else if !(fsPathExists fs config_file) then
      Except.error (PyErr.fileNotFoundError
        ("VM template " ++ name ++ " is missing its config file."))
    else
      match fsReadText fs config_file with
      | none => Except.error (PyErr.valueError "config file is not readable")
      | some text =>
        match parse text with
        | Except.error e => Except.error (PyErr.yamlError
            ("VM template " ++ name ++ " has an invalid configuration file: " ++ e))
        | Except.ok y => Except.ok y
  else
    Except.ok (Yaml.dict [])

/-- Line 48 of `VMTemplate.__init__` on top of the load above:
`self.ssh_port = self.config.get("ssh_port", 22)`. -/
def VMTemplate.init (parse : String → Except String Yaml) (fs : FS)
    (name : String) (vm_template_dir : FsPath) (delete : Bool) :
    Except PyErr VMTemplate :=
  let path := templatePath vm_template_dir name
  let config_file := templateConfigFile vm_template_dir name
  let disk := templateDisk vm_template_dir name
  match VMTemplate.loadConfig parse fs name path config_file disk delete with
  | Except.error e => Except.error e
  | Except.ok (Yaml.dict entries) =>
      Except.ok { name := name, path := path, config_file := config_file, disk := disk,
                  config := Yaml.dict entries,
                  ssh_port := (yamlGet entries "ssh_port").getD (Yaml.int 22) }
  | Except.ok _ => Except.error (PyErr.attributeError "config.get on a non-mapping document")

/-- One iteration of the reference scan in `VMTemplate.delete` (lines
93-97): list the entries of `group / "vm_templates"` and append the group
when `self.name in group_vm_templates` holds.  The `in` test compares the
`str` `self.name` with the `pathlib.Path` objects yielded by `iterdir`. -/
def deleteScanStep (fs : FS) (tname : String) (acc : List String) (g : FsPath) :
    Except PyErr (List String) := do
  let members ← fsIterdirE fs (g ++ ["vm_templates"])
  if pyIn (PyVal.str tname) (members.map PyVal.path) then
    pure (acc ++ [asPosix g])
  else
    pure acc

/-- Method `VMTemplate.delete` (`src/classes/vm_template.py` lines 88-105).

Checks the template path, scans every group under `group_dir` for a
reference, raises `FileExistsError` listing the found groups when
`acknowledge` is not passed, otherwise removes the found references and
finally removes the template tree.  Source line 102 builds the per-group
path as `group_dir / x / "vm_templates" / {self.name}`: joining a
`pathlib.Path` with a Python set literal raises `TypeError` on the first
iteration, which the embedding mirrors. -/
def VMTemplate.delete (fs : FS) (t : VMTemplate) (group_dir : FsPath)
    (acknowledge : Bool) : Except PyErr FS := do
  if !(fsPathExists fs t.path) then
    Except.error (PyErr.fileNotFoundError
      ("Cannot delete nonexistent template " ++ t.name))
  else do
    let groups ← fsIterdirE fs group_dir
    let found_groups ← groups.foldlM (deleteScanStep fs t.name) []
    if !found_groups.isEmpty && !acknowledge then
      Except.error (PyErr.fileExistsError
        "The template exists in the following groups and must be deleted first"
        found_groups)
    else if !found_groups.isEmpty && acknowledge then
      Except.error (PyErr.typeError
        "unsupported operand type for /: PurePosixPath and set")
    else
      pure (fsRmtree fs t.path)

/-- The reference scan of `VMTemplate.delete` never finds any group: the
`in` test compares a `str` against `pathlib.Path` objects and is always
`False`, so the accumulator is returned unchanged whenever every
`vm_templates` subdirectory can be listed. -/
theorem deleteScan_adds_nothing (fs : FS) (tname : String) (groups : List FsPath)
    (acc : List String)
    (h : ∀ g ∈ groups, fsFind fs (g ++ ["vm_templates"]) = some Node.dir) :
    groups.foldlM (deleteScanStep fs tname) acc = Except.ok acc := by
  induction groups generalizing acc with
  | nil => rfl
  | cons g t ih =>
    have hg := h g (List.mem_cons_self g t)
    have hstep : deleteScanStep fs tname acc g = Except.ok acc := by
      simp [deleteScanStep, fsIterdirE, hg, pyIn_str_path_list]
    rw [List.foldlM_cons, hstep]
    exact ih acc (fun g2 hg2 => h g2 (List.mem_cons_of_mem g hg2))

/-- Python `shutil.copy2`: copy file content and metadata, reading through a
possible symlink at the source. -/
def fsCopy2 (fs : FS) (src dst : FsPath) : Except PyErr FS :=
  match fsFind fs (fsResolve fs src) with
  | some (Node.file c m) => Except.ok (fsSet fs dst (Node.file c m))
  | _ => Except.error (PyErr.fileNotFoundError "copy source is not a regular file")

/-- Python `shutil.copyfile`: copy file content only; the destination gets fresh
metadata (modelled as `0`). -/
def fsCopyfile (fs : FS) (src dst : FsPath) : Except PyErr FS :=
  match fsFind fs (fsResolve fs src) with
  | some (Node.file c _) => Except.ok (fsSet fs dst (Node.file c 0))
  | _ => Except.error (PyErr.fileNotFoundError "copy source is not a regular file")

/-- Outcomes of the external collaborators invoked during template
creation: `qemu-img`, `virt-install` (the `src/classes.py` variant) and the
libvirt domain calls (the `src/classes/vm_template.py` variant).  On
success `qemu-img create` writes a fresh disk image with the given content
and metadata. -/
structure ExternalWorld where
  qemuImgOk : Bool
  qemuImgContent : String
  qemuImgMeta : Nat
  virtInstallOk : Bool
  defineXMLOk : Bool
  attachOk : Bool
  domainCreateOk : Bool
  shutdownOk : Bool
  detachOk : Bool

/-- Method `VMTemplate.create` (`src/classes/vm_template.py` lines 108-172).

Precondition checks (template must not exist; an ISO or an existing disk
image must be supplied and present), then the directory skeleton is made
(`mkdir` of the template path and the ssh/user/root asset buckets), then
provisioning: without an existing image, `qemu-img create` runs with
`check=True` and NO surrounding try/except, so its failure propagates with
the skeleton left in place; with an existing image, `shutil.copy2` then
`defineXML`/`attach_iso`/`domain.create()`/`shutdown`/`detach_iso`, none
of which is guarded by a rollback either.  `disk_size`, `cpus`, `memory`
and the device type strings only parametrize the external calls.  Errors
carry the filesystem at the moment of the raise. -/
def VMTemplate.create (fs : FS) (t : VMTemplate) (ext : ExternalWorld)
    (disk_size cpus memory : Nat)
    (existing_disk_image : Option FsPath) (iso : Option FsPath) :
    Except (PyErr × FS) FS :=
  if fsPathExists fs t.path then
    Except.error (PyErr.fileExistsError ("Cannot create existing template " ++ t.name) [], fs)
  else if existing_disk_image.isNone && iso.isNone then
    Except.error (PyErr.valueError
      "An ISO or existing disk image is required when creating a VM", fs)
  else if (iso.map (fun i => !(fsPathExists fs i))).getD false then
    Except.error (PyErr.fileNotFoundError "ISO does not exist.", fs)
  else if (existing_disk_image.map (fun d => !(fsPathExists fs d))).getD false then
    Except.error (PyErr.fileNotFoundError "Disk image does not exist.", fs)
  else
    let fs1 := fsSet (fsSet (fsSet (fsSet (fsSet (fsSet fs
      t.path Node.dir)
      (t.path ++ ["ssh"]) Node.dir)
      (t.path ++ ["user_executables"]) Node.dir)
      (t.path ++ ["root_executables"]) Node.dir)
      (t.path ++ ["user_files"]) Node.dir)
      (t.path ++ ["root_files"]) Node.dir
    match existing_disk_image with
    | none =>
      if ext.qemuImgOk then
        Except.ok (fsSet fs1 t.disk (Node.file ext.qemuImgContent ext.qemuImgMeta))
      else
        Except.error (PyErr.calledProcessError "qemu-img create failed", fs1)
    | some d =>
      match fsCopy2 fs1 d t.disk with
      | Except.error e => Except.error (e, fs1)
      | Except.ok fs2 =>
        if !ext.defineXMLOk then
          Except.error (PyErr.libvirtError "defineXML failed", fs2)
        else if !ext.attachOk then
          Except.error (PyErr.libvirtError "attachDeviceFlags failed", fs2)
        else if !ext.domainCreateOk then
          Except.error (PyErr.libvirtError "domain.create failed", fs2)
        else if !ext.shutdownOk then
          Except.error (PyErr.libvirtError "domain.shutdown failed", fs2)
        else if !ext.detachOk then
          Except.error (PyErr.libvirtError "updateDeviceFlags failed", fs2)
        else
          Except.ok fs2

/-- Method `VMTemplate.create` of the earlier variant `src/classes.py` (lines
56-97).  Same precondition checks; the skeleton has no ssh bucket; the
disk comes from `qemu-img create` (run with `check=True` OUTSIDE the
try/except) or `shutil.copyfile`; `virt-install` runs inside a try/except
whose handler removes the whole template directory before re-raising. -/
def ClassesPy.create (fs : FS) (t : VMTemplate) (ext : ExternalWorld)
    (disk_size cpus memory : Nat)
    (existing_disk_image : Option FsPath) (iso : Option FsPath) :
    Except (PyErr × FS) FS :=
  if fsPathExists fs t.path then
    Except.error (PyErr.fileExistsError ("Cannot create existing template " ++ t.name) [], fs)
  else if existing_disk_image.isNone && iso.isNone then
    Except.error (PyErr.valueError
      "An ISO or existing disk image is required when creating a VM", fs)
  else if (iso.map (fun i => !(fsPathExists fs i))).getD false then
    Except.error (PyErr.fileNotFoundError "ISO does not exist.", fs)
  else if (existing_disk_image.map (fun d => !(fsPathExists fs d))).getD false then
    Except.error (PyErr.fileNotFoundError "Disk image does not exist.", fs)
  else
    let fs1 := fsSet (fsSet (fsSet (fsSet (fsSet fs
      t.path Node.dir)
      (t.path ++ ["user_executables"]) Node.dir)
      (t.path ++ ["root_executables"]) Node.dir)
      (t.path ++ ["user_files"]) Node.dir)
      (t.path ++ ["root_files"]) Node.dir
    match existing_disk_image with
    | none =>
      if !ext.qemuImgOk then
        Except.error (PyErr.calledProcessError "qemu-img create failed", fs1)
      else
        let fs2 := fsSet fs1 t.disk (Node.file ext.qemuImgContent ext.qemuImgMeta)
        if ext.virtInstallOk then
          Except.ok fs2
        else
          Except.error (PyErr.calledProcessError "VM template creation failed.",
            fsRmtree fs2 t.path)
    | some d =>
      match fsCopyfile fs1 d t.disk with
      | Except.error e => Except.error (e, fs1)
      | Except.ok fs2 =>
        if ext.virtInstallOk then
          Except.ok fs2
        else
          Except.error (PyErr.calledProcessError "VM template creation failed.",
            fsRmtree fs2 t.path)

/-! ## Group Store: `src/classes/group.py` -/

/-- The fields set by `Group.__init__` (`src/classes/group.py` lines 8-18). -/
structure Group where
  name : String
  path : FsPath
  snapshot_dir : FsPath
  vm_template_dir : FsPath
  global_templates_dir : FsPath

/-- Constructor `Group.__init__`: derive the group paths; performs no filesystem write. -/
def Group.init (name : String) (global_group_dir global_templates_dir : FsPath) : Group :=
  { name := name
    path := global_group_dir ++ [name]
    snapshot_dir := global_group_dir ++ [name, "snapshots"]
    vm_template_dir := global_group_dir ++ [name, "vm_templates"]
    global_templates_dir := global_templates_dir }

/-- One entry of the copy-or-link loop shared by
`Group.add_vm_template` (`src/classes/group.py` lines 45-55) and
`Instance.start` (`src/classes/instances.py` lines 23-33): directories are
mirrored with `mkdir(parents=True, exist_ok=True)`; a file whose name
matches `*qcow2` becomes a symlink to `path.resolve()` (`symlink_to`
raises `FileExistsError` when the target already exists); any other file
is copied with `shutil.copy2`.  `is_dir`/`is_file` follow symlinks, hence
the node is inspected through `fsResolve`. -/
def materializeEntry (src dst : FsPath) (fs : FS) (p : FsPath) : Except PyErr FS :=
  let relative := p.drop src.length
  let target := dst ++ relative
  match fsFind fs (fsResolve fs p) with
  | some Node.dir => Except.ok (fsMkdirParents fs target)
  | some (Node.file c m) =>
    if String.endsWith (p.getLastD "") "qcow2" then
      if fsPathExists fs target then
        Except.error (PyErr.fileExistsError "FileExistsError" [])
      else
        Except.ok (fsSet fs target (Node.symlink (fsResolve fs p)))
    else
      Except.ok (fsSet fs target (Node.file c m))
  | _ => Except.ok fs

/-- Loop `for path in src.rglob('*')` over the source subtree.  The generator
runs over the source tree, which the loop never writes (all writes land
under `dst`), so the entry list is computed from the filesystem at entry. -/
def materializeTree (fs : FS) (src dst : FsPath) : Except PyErr FS :=
  (fsDescendants fs src).foldlM (materializeEntry src dst) fs

/-- Method `Group.add_vm_template` (`src/classes/group.py` lines 37-55).  The
guard `template_name not in self.global_templates_dir.iterdir()` compares
the `str` argument with the `pathlib.Path` objects yielded by `iterdir`. -/
def Group.add_vm_template (fs : FS) (g : Group) (template_name : String) :
    Except PyErr FS := do
  let entries ← fsIterdirE fs g.global_templates_dir
  if !(pyIn (PyVal.str template_name) (entries.map PyVal.path)) then
    Except.error (PyErr.fileNotFoundError
      ("Cannot add nonexistent template " ++ template_name))
  else
    materializeTree fs (g.global_templates_dir ++ [template_name])
      (g.vm_template_dir ++ [template_name])

/-- Method `VMTemplate.edit` (`src/classes/vm_template.py` lines 219-233).
The config is copied (`copy2`) to `<config>.tmp` beside it, the resolved
interactive editor rewrites that copy (modelled by `editorText` and
`editorMeta`), the result is parsed; on a parse error the temporary file
is unlinked and `yaml.YAMLError` is raised, otherwise
`tmp_file.replace(self.config_file)` atomically renames the temporary
file onto the original.  Errors carry the filesystem at the raise. -/
def VMTemplate.edit (parse : String → Except String Yaml) (fs : FS)
    (t : VMTemplate) (editorText : String) (editorMeta : Nat) :
    Except (PyErr × FS) FS :=
  let tmp_file := t.path ++ [(t.config_file.getLastD "") ++ ".tmp"]
  match fsCopy2 fs t.config_file tmp_file with
  | Except.error e => Except.error (e, fs)
  | Except.ok fs1 =>
    let fs2 := fsSet fs1 tmp_file (Node.file editorText editorMeta)
    match parse editorText with
    | Except.error e =>
      Except.error (PyErr.yamlError ("YAML error in config file; unable to apply " ++ e),
        fsErase fs2 tmp_file)
    | Except.ok _ =>
      Except.ok (fsSet (fsErase fs2 tmp_file) t.config_file
        (Node.file editorText editorMeta))

/-- Call `glob.glob(f"{active_dir.as_posix()}/{self.name}_*")` in
`VMTemplate.start` (line 253): the names directly under `active_dir` that
begin with `<name>_`. -/
def startTakenNames (fs : FS) (active_dir : FsPath) (name : String) : List String :=
  ((fsIterdir fs active_dir).map (fun q => q.getLastD "")).filter
    (fun s => List.isPrefixOf (name ++ "_").data s.data)

/-- The for-loop of `VMTemplate.start` (lines 254-256): the first id in
`range(1000)` whose name `f"{self.name}_{id}"` is not taken, if any.  When
every id is taken the loop falls through without `break` and without any
effect. -/
def startFreeId (taken : List String) (name : String) : Option Nat :=
  (List.range 1000).find? (fun id => !(taken.contains (name ++ "_" ++ Nat.repr id)))

/-- Method `VMTemplate.start` (`src/classes/vm_template.py` lines 251-258).  The
method computes the free id and then ends: the remainder of the function
body is absent from the source, so the call performs no filesystem
change, raises no exception, and binds the computed name to nothing.
The result records (computed id, filesystem after the call, raised
exception). -/
def VMTemplate.start (fs : FS) (t : VMTemplate) (active_dir : FsPath) :
    Option Nat × FS × Option PyErr :=
  (startFreeId (startTakenNames fs active_dir t.name) t.name, fs, none)

/-! ## Instance Materializer: `src/classes/instances.py` -/

/-- The instance-name candidates of `Instance.start` (lines 15-21): the
first attempt interpolates the float `datetime.datetime.now().timestamp()`
(integer seconds `secs 0`, fractional digits `frac`); every retry takes a
fresh clock reading and interpolates `int(...) + 1`.  `secs i` is the
integer-seconds part of the i-th `now()` call. -/
def instanceCandidate (group_name : String) (secs : Nat → Nat) (frac : String) :
    Nat → String
  | 0 => group_name ++ "-" ++ Nat.repr (secs 0) ++ "." ++ frac
  | i + 1 => group_name ++ "-" ++ Nat.repr (secs (i + 1) + 1)

/-- The `while self.path.exists()` retry loop of `Instance.start` (lines
14-21), with explicit fuel (the Python loop has no bound of its own):
starting from the i-th clock reading, return the first candidate name
whose directory does not yet exist. -/
def instanceFindName (fs : FS) (instance_dir : FsPath) (group_name : String)
    (secs : Nat → Nat) (frac : String) : Nat → Nat → Option String
  | 0, _ => none
  | fuel + 1, i =>
    let n := instanceCandidate group_name secs frac i
    if fsPathExists fs (instance_dir ++ [n]) then
      instanceFindName fs instance_dir group_name secs frac fuel (i + 1)
    else
      some n

/-! ## General helper lemmas -/

theorem pathNeChild (p : FsPath) (s : String) : p ≠ p ++ [s] := by
  intro h
  have h2 := congrArg List.length h
  simp at h2

theorem isPrefixOf_self (p : FsPath) : List.isPrefixOf p p = true := by
  simp

theorem exceptBind_ok {ε α β : Type _} (a : α) (f : α → Except ε β) :
    (Except.ok a >>= f : Except ε β) = f a := rfl

theorem exceptBind_error {ε α β : Type _} (e : ε) (f : α → Except ε β) :
    ((Except.error e : Except ε α) >>= f : Except ε β) = Except.error e := rfl

theorem exceptPure_eq_ok {ε α : Type _} (a : α) :
    (pure a : Except ε α) = Except.ok a := rfl

theorem fsResolve_file (fs : FS) (p : FsPath) (c : String) (m : Nat)
    (h : fsFind fs p = some (Node.file c m)) : fsResolve fs p = p := by
  cases fs with
  | nil => exact Option.noConfusion h
  | cons e t =>
    show fsResolveN (e :: t).length (e :: t) p = p
    rw [List.length_cons]
    simp [fsResolveN, h]

/-! ## Claim C5: the Load path of `VMTemplate.__init__` -/

/-- Claim C5, counterexample to the claim as stated.  The claim says
`Load` fails with `NotFound` when the template directory is absent; on an
empty filesystem the constructor instead succeeds, with the empty config
and the default ssh port. -/
theorem mockmox_C5_counterexample :
    VMTemplate.init (fun _ => Except.ok (Yaml.dict [])) [] "t" ["vms"] false =
      Except.ok { name := "t", path := ["vms", "t"],
                  config_file := ["vms", "t", "t_config.yaml"],
                  disk := ["vms", "t", "t.qcow2"],
                  config := Yaml.dict [], ssh_port := Yaml.int 22 } := rfl

/-- Claim C5, amended: when the template directory is absent the
constructor succeeds with the empty config (it does NOT fail with
`NotFound`); when the directory exists but the disk image is missing it
fails with the missing-disk `FileNotFoundError` (`Corrupted`); when disk
is present but the config file is missing it fails with the
missing-config `FileNotFoundError` (`Corrupted`); when the config
document fails to parse it fails with `yaml.YAMLError`
(`InvalidConfig`).  The constructor only reads: its result type carries
no filesystem, so no write can occur. -/
theorem mockmox_C5_amended (parse : String → Except String Yaml) (fs : FS)
    (name : String) (dir : FsPath) :
    (fsPathExists fs (templatePath dir name) = false →
      VMTemplate.init parse fs name dir false =
        Except.ok { name := name, path := templatePath dir name,
                    config_file := templateConfigFile dir name,
                    disk := templateDisk dir name,
                    config := Yaml.dict [], ssh_port := Yaml.int 22 }) ∧
    (fsPathExists fs (templatePath dir name) = true →
      fsPathExists fs (templateDisk dir name) = false →
      VMTemplate.init parse fs name dir false =
        Except.error (PyErr.fileNotFoundError
          ("VM template " ++ name ++ " is missing its disk image."))) ∧
    (fsPathExists fs (templatePath dir name) = true →
      fsPathExists fs (templateDisk dir name) = true →
      fsPathExists fs (templateConfigFile dir name) = false →
      VMTemplate.init parse fs name dir false =
        Except.error (PyErr.fileNotFoundError
          ("VM template " ++ name ++ " is missing its config file."))) ∧
    (∀ text e, fsPathExists fs (templatePath dir name) = true →
      fsPathExists fs (templateDisk dir name) = true →
      fsPathExists fs (templateConfigFile dir name) = true →
      fsReadText fs (templateConfigFile dir name) = some text →
      parse text = Except.error e →
      VMTemplate.init parse fs name dir false =
        Except.error (PyErr.yamlError
          ("VM template " ++ name ++ " has an invalid configuration file: " ++ e))) := by
  refine ⟨?_, ?_, ?_, ?_⟩
  · intro h
    simp [VMTemplate.init, VMTemplate.loadConfig, h, yamlGet]
  · intro h1 h2
    simp [VMTemplate.init, VMTemplate.loadConfig, h1, h2]
  · intro h1 h2 h3
    simp [VMTemplate.init, VMTemplate.loadConfig, h1, h2, h3]
  · intro text e h1 h2 h3 hre hp
    simp [VMTemplate.init, VMTemplate.loadConfig, h1, h2, h3, hre, hp]

/-- Claim C5 amended, witness: a template directory that exists without
its disk image makes the constructor fail with the missing-disk error. -/
theorem mockmox_C5_amended_witness :
    VMTemplate.init (fun _ => Except.ok (Yaml.dict []))
        [(["vms", "t"], Node.dir)] "t" ["vms"] false =
      Except.error (PyErr.fileNotFoundError
        "VM template t is missing its disk image.") :=
  (mockmox_C5_amended (fun _ => Except.ok (Yaml.dict []))
    [(["vms", "t"], Node.dir)] "t" ["vms"]).2.1 rfl rfl

/-! ## Claim C10: the ssh_port default -/

/-- Claim C10: for every successfully constructed template the parsed
config is a mapping, the ssh port is the value stored under `ssh_port`
when the key is present and `22` when it is absent; in particular when
the template directory does not exist the config is empty and the port
is `22`. -/
theorem mockmox_C10_ssh_port (parse : String → Except String Yaml) (fs : FS)
    (name : String) (dir : FsPath) (st : VMTemplate)
    (h : VMTemplate.init parse fs name dir false = Except.ok st) :
    (∃ entries, st.config = Yaml.dict entries ∧
      (yamlGet entries "ssh_port" = none → st.ssh_port = Yaml.int 22) ∧
      (∀ v, yamlGet entries "ssh_port" = some v → st.ssh_port = v)) ∧
    (fsPathExists fs (templatePath dir name) = false →
      st.config = Yaml.dict [] ∧ st.ssh_port = Yaml.int 22) := by
  simp only [VMTemplate.init] at h
  cases hl : VMTemplate.loadConfig parse fs name (templatePath dir name)
      (templateConfigFile dir name) (templateDisk dir name) false with
  | error e => rw [hl] at h; cases h
  | ok y =>
    rw [hl] at h
    cases y with
    | dict entries =>
      cases h
      refine ⟨⟨entries, rfl, ?_, ?_⟩, ?_⟩
      · intro hnone
        show (yamlGet entries "ssh_port").getD (Yaml.int 22) = Yaml.int 22
        rw [hnone]; rfl
      · intro v hv
        show (yamlGet entries "ssh_port").getD (Yaml.int 22) = v
        rw [hv]; rfl
      · intro habs
        have hempty : VMTemplate.loadConfig parse fs name (templatePath dir name)
            (templateConfigFile dir name) (templateDisk dir name) false =
            Except.ok (Yaml.dict []) := by
          simp [VMTemplate.loadConfig, habs]
        rw [hl] at hempty
        have hent : entries = ([] : List (String × Yaml)) := by
          injection hempty with h1
          injection h1
        subst hent
        exact ⟨rfl, rfl⟩
    | null => cases h
    | bool b => cases h
    | int n => cases h
    | str s => cases h
    | list xs => cases h

/-- Claim C10, witness at a concrete input: on an empty filesystem the
constructor succeeds and all three conclusions evaluate. -/
theorem mockmox_C10_witness :
    (∃ entries,
      (Yaml.dict ([] : List (String × Yaml))) = Yaml.dict entries ∧
      (yamlGet entries "ssh_port" = none →
        (Yaml.int 22 : Yaml) = Yaml.int 22) ∧
      (∀ v, yamlGet entries "ssh_port" = some v →
        (Yaml.int 22 : Yaml) = v)) ∧
    (fsPathExists ([] : FS) (templatePath ["vms"] "t") = false →
      (Yaml.dict ([] : List (String × Yaml))) = Yaml.dict [] ∧
      (Yaml.int 22 : Yaml) = Yaml.int 22) :=
  mockmox_C10_ssh_port (fun _ => Except.ok (Yaml.dict [])) [] "t" ["vms"]
    { name := "t", path := ["vms", "t"],
      config_file := ["vms", "t", "t_config.yaml"],
      disk := ["vms", "t", "t.qcow2"],
      config := Yaml.dict [], ssh_port := Yaml.int 22 } rfl

/-! ## Claims C1 and C2: `VMTemplate.delete` -/

/-- Claim C1: divergence.  Whenever the template exists and every group
subdirectory can be listed, `delete` WITHOUT the force flag succeeds and
removes the template directory — it never raises the referenced-groups
`FileExistsError`, because the scan compares the template name (a `str`)
with `pathlib.Path` objects and so never finds a referencing group.  In
particular this holds when some group does reference the template (see
the witness), where the claim demands a `ReferencedError` failure that
leaves the directory in place. -/
theorem mockmox_C1_delete_no_force (fs : FS) (t : VMTemplate) (group_dir : FsPath)
    (hpath : fsPathExists fs t.path = true)
    (hgd : fsFind fs group_dir = some Node.dir)
    (hsub : ∀ g ∈ fsIterdir fs group_dir, fsFind fs (g ++ ["vm_templates"]) = some Node.dir) :
    VMTemplate.delete fs t group_dir false = Except.ok (fsRmtree fs t.path) ∧
    fsPathExists (fsRmtree fs t.path) t.path = false := by
  constructor
  · have hscan := deleteScan_adds_nothing fs t.name (fsIterdir fs group_dir) [] hsub
    simp [VMTemplate.delete, hpath, fsIterdirE, hgd, hscan, exceptBind_ok, exceptPure_eq_ok]
  · show (fsFind (fsRmtree fs t.path) t.path).isSome = false
    rw [fsFind_rmtree_under fs t.path t.path (isPrefixOf_self t.path)]
    rfl

/-- Claim C1, witness: template `t` exists and group `g` contains a
member named `t`, yet the forceless delete succeeds and the template
directory is gone afterwards. -/
theorem mockmox_C1_witness :
    VMTemplate.delete
        [(["vms"], Node.dir), (["vms", "t"], Node.dir),
         (["vms", "t", "t.qcow2"], Node.file "disk" 1),
         (["vms", "t", "t_config.yaml"], Node.file "ssh_port: 22" 2),
         (["groups"], Node.dir), (["groups", "g"], Node.dir),
         (["groups", "g", "vm_templates"], Node.dir),
         (["groups", "g", "vm_templates", "t"], Node.dir)]
        { name := "t", path := ["vms", "t"],
          config_file := ["vms", "t", "t_config.yaml"],
          disk := ["vms", "t", "t.qcow2"],
          config := Yaml.dict [], ssh_port := Yaml.int 22 }
        ["groups"] false =
      Except.ok (fsRmtree
        [(["vms"], Node.dir), (["vms", "t"], Node.dir),
         (["vms", "t", "t.qcow2"], Node.file "disk" 1),
         (["vms", "t", "t_config.yaml"], Node.file "ssh_port: 22" 2),
         (["groups"], Node.dir), (["groups", "g"], Node.dir),
         (["groups", "g", "vm_templates"], Node.dir),
         (["groups", "g", "vm_templates", "t"], Node.dir)]
        ["vms", "t"]) ∧
    fsPathExists (fsRmtree
        [(["vms"], Node.dir), (["vms", "t"], Node.dir),
         (["vms", "t", "t.qcow2"], Node.file "disk" 1),
         (["vms", "t", "t_config.yaml"], Node.file "ssh_port: 22" 2),
         (["groups"], Node.dir), (["groups", "g"], Node.dir),
         (["groups", "g", "vm_templates"], Node.dir),
         (["groups", "g", "vm_templates", "t"], Node.dir)]
        ["vms", "t"]) ["vms", "t"] = false :=
  mockmox_C1_delete_no_force _ _ _ (by decide) (by decide) (by decide)

/-- Claim C2: divergence.  `delete` WITH the force flag removes only the
template directory: the scan finds no referencing group (str-vs-Path
comparison), so the cascade over the groups never runs and the group
member subtree survives the call, where the claim demands that it be
removed as well. -/
theorem mockmox_C2_force_delete (fs : FS) (t : VMTemplate) (group_dir : FsPath)
    (gname : String)
    (hpath : fsPathExists fs t.path = true)
    (hgd : fsFind fs group_dir = some Node.dir)
    (hsub : ∀ g ∈ fsIterdir fs group_dir, fsFind fs (g ++ ["vm_templates"]) = some Node.dir)
    (hmember : fsPathExists fs (group_dir ++ [gname, "vm_templates", t.name]) = true)
    (houtside : List.isPrefixOf t.path (group_dir ++ [gname, "vm_templates", t.name]) = false) :
    VMTemplate.delete fs t group_dir true = Except.ok (fsRmtree fs t.path) ∧
    fsPathExists (fsRmtree fs t.path) (group_dir ++ [gname, "vm_templates", t.name]) = true ∧
    fsPathExists (fsRmtree fs t.path) t.path = false := by
  refine ⟨?_, ?_, ?_⟩
  · have hscan := deleteScan_adds_nothing fs t.name (fsIterdir fs group_dir) [] hsub
    simp [VMTemplate.delete, hpath, fsIterdirE, hgd, hscan, exceptBind_ok, exceptPure_eq_ok]
  · show (fsFind (fsRmtree fs t.path) (group_dir ++ [gname, "vm_templates", t.name])).isSome = true
    rw [fsFind_rmtree_outside fs t.path _ houtside]
    exact hmember
  · show (fsFind (fsRmtree fs t.path) t.path).isSome = false
    rw [fsFind_rmtree_under fs t.path t.path (isPrefixOf_self t.path)]
    rfl

/-- Claim C2, witness: after a forced delete of template `t`, which group
`g` references, the group's copy `groups/g/vm_templates/t` still exists. -/
theorem mockmox_C2_witness :
    VMTemplate.delete
        [(["vms"], Node.dir), (["vms", "t"], Node.dir),
         (["vms", "t", "t.qcow2"], Node.file "disk" 1),
         (["vms", "t", "t_config.yaml"], Node.file "ssh_port: 22" 2),
         (["groups"], Node.dir), (["groups", "g"], Node.dir),
         (["groups", "g", "vm_templates"], Node.dir),
         (["groups", "g", "vm_templates", "t"], Node.dir)]
        { name := "t", path := ["vms", "t"],
          config_file := ["vms", "t", "t_config.yaml"],
          disk := ["vms", "t", "t.qcow2"],
          config := Yaml.dict [], ssh_port := Yaml.int 22 }
        ["groups"] true =
      Except.ok (fsRmtree
        [(["vms"], Node.dir), (["vms", "t"], Node.dir),
         (["vms", "t", "t.qcow2"], Node.file "disk" 1),
         (["vms", "t", "t_config.yaml"], Node.file "ssh_port: 22" 2),
         (["groups"], Node.dir), (["groups", "g"], Node.dir),
         (["groups", "g", "vm_templates"], Node.dir),
         (["groups", "g", "vm_templates", "t"], Node.dir)]
        ["vms", "t"]) ∧
    fsPathExists (fsRmtree
        [(["vms"], Node.dir), (["vms", "t"], Node.dir),
         (["vms", "t", "t.qcow2"], Node.file "disk" 1),
         (["vms", "t", "t_config.yaml"], Node.file "ssh_port: 22" 2),
         (["groups"], Node.dir), (["groups", "g"], Node.dir),
         (["groups", "g", "vm_templates"], Node.dir),
         (["groups", "g", "vm_templates", "t"], Node.dir)]
        ["vms", "t"]) (["groups"] ++ ["g", "vm_templates", "t"]) = true ∧
    fsPathExists (fsRmtree
        [(["vms"], Node.dir), (["vms", "t"], Node.dir),
         (["vms", "t", "t.qcow2"], Node.file "disk" 1),
         (["vms", "t", "t_config.yaml"], Node.file "ssh_port: 22" 2),
         (["groups"], Node.dir), (["groups", "g"], Node.dir),
         (["groups", "g", "vm_templates"], Node.dir),
         (["groups", "g", "vm_templates", "t"], Node.dir)]
        ["vms", "t"]) ["vms", "t"] = false :=
  mockmox_C2_force_delete _ _ ["groups"] "g" (by decide) (by decide) (by decide)
    (by decide) (by decide)

/-! ## Claim C3: rollback on failed create -/

/-- Claim C3: divergence.  When the precondition checks pass (template
absent, ISO supplied and present) and the disk-allocation step
(`qemu-img create`) fails, BOTH create variants raise with the
just-created template directory still present: the
`src/classes/vm_template.py` variant has no rollback at all, and in the
`src/classes.py` variant `qemu-img` runs outside the try/except whose
handler performs the rollback.  The claim demands that no template
directory exist after a failed create. -/
theorem mockmox_C3_create_no_rollback (fs : FS) (t : VMTemplate)
    (ext : ExternalWorld) (ds cp mem : Nat) (iso : FsPath)
    (habsent : fsPathExists fs t.path = false)
    (hiso : fsPathExists fs iso = true)
    (hfail : ext.qemuImgOk = false) :
    (∃ fs1, VMTemplate.create fs t ext ds cp mem none (some iso) =
        Except.error (PyErr.calledProcessError "qemu-img create failed", fs1) ∧
      fsPathExists fs1 t.path = true) ∧
    (∃ fs2, ClassesPy.create fs t ext ds cp mem none (some iso) =
        Except.error (PyErr.calledProcessError "qemu-img create failed", fs2) ∧
      fsPathExists fs2 t.path = true) := by
  constructor
  · refine ⟨fsSet (fsSet (fsSet (fsSet (fsSet (fsSet fs
      t.path Node.dir)
      (t.path ++ ["ssh"]) Node.dir)
      (t.path ++ ["user_executables"]) Node.dir)
      (t.path ++ ["root_executables"]) Node.dir)
      (t.path ++ ["user_files"]) Node.dir)
      (t.path ++ ["root_files"]) Node.dir, ?_, ?_⟩
    · simp [VMTemplate.create, habsent, hiso, hfail]
    · show (fsFind _ t.path).isSome = true
      rw [fsFind_set_ne _ _ _ _ (pathNeChild t.path "root_files"),
          fsFind_set_ne _ _ _ _ (pathNeChild t.path "user_files"),
          fsFind_set_ne _ _ _ _ (pathNeChild t.path "root_executables"),
          fsFind_set_ne _ _ _ _ (pathNeChild t.path "user_executables"),
          fsFind_set_ne _ _ _ _ (pathNeChild t.path "ssh"),
          fsFind_set_self]
      rfl
  · refine ⟨fsSet (fsSet (fsSet (fsSet (fsSet fs
      t.path Node.dir)
      (t.path ++ ["user_executables"]) Node.dir)
      (t.path ++ ["root_executables"]) Node.dir)
      (t.path ++ ["user_files"]) Node.dir)
      (t.path ++ ["root_files"]) Node.dir, ?_, ?_⟩
    · simp [ClassesPy.create, habsent, hiso, hfail]
    · show (fsFind _ t.path).isSome = true
      rw [fsFind_set_ne _ _ _ _ (pathNeChild t.path "root_files"),
          fsFind_set_ne _ _ _ _ (pathNeChild t.path "user_files"),
          fsFind_set_ne _ _ _ _ (pathNeChild t.path "root_executables"),
          fsFind_set_ne _ _ _ _ (pathNeChild t.path "user_executables"),
          fsFind_set_self]
      rfl

/-- Claim C3, witness: concrete failed create (qemu-img fails) of
template `t` from an ISO leaves the template directory in place in both
variants. -/
theorem mockmox_C3_witness :
    (∃ fs1, VMTemplate.create [(["vms"], Node.dir), (["iso.img"], Node.file "iso" 0)]
        { name := "t", path := ["vms", "t"],
          config_file := ["vms", "t", "t_config.yaml"],
          disk := ["vms", "t", "t.qcow2"],
          config := Yaml.dict [], ssh_port := Yaml.int 22 }
        { qemuImgOk := false, qemuImgContent := "", qemuImgMeta := 0,
          virtInstallOk := true, defineXMLOk := true, attachOk := true,
          domainCreateOk := true, shutdownOk := true, detachOk := true }
        64 4 8192 none (some ["iso.img"]) =
        Except.error (PyErr.calledProcessError "qemu-img create failed", fs1) ∧
      fsPathExists fs1 ["vms", "t"] = true) ∧
    (∃ fs2, ClassesPy.create [(["vms"], Node.dir), (["iso.img"], Node.file "iso" 0)]
        { name := "t", path := ["vms", "t"],
          config_file := ["vms", "t", "t_config.yaml"],
          disk := ["vms", "t", "t.qcow2"],
          config := Yaml.dict [], ssh_port := Yaml.int 22 }
        { qemuImgOk := false, qemuImgContent := "", qemuImgMeta := 0,
          virtInstallOk := true, defineXMLOk := true, attachOk := true,
          domainCreateOk := true, shutdownOk := true, detachOk := true }
        64 4 8192 none (some ["iso.img"]) =
        Except.error (PyErr.calledProcessError "qemu-img create failed", fs2) ∧
      fsPathExists fs2 ["vms", "t"] = true) :=
  mockmox_C3_create_no_rollback _ _ _ 64 4 8192 _ (by decide) (by decide) rfl

/-! ## Claims C4 and C6: `Group.add_vm_template` -/

/-- Claim C4: divergence.  `add_vm_template` never reaches the
materialization loop: the guard compares the template name (a `str`)
against the `pathlib.Path` objects yielded by `iterdir`, finds no match,
and raises `FileNotFoundError` — even when the template exists in the
global template directory, as in the witness.  No disk symlink or asset
copy is ever produced. -/
theorem mockmox_C4_addmember_never_materializes (fs : FS) (g : Group)
    (tn : String)
    (hdir : fsFind fs g.global_templates_dir = some Node.dir)
    (hglobal : fsPathExists fs (g.global_templates_dir ++ [tn]) = true) :
    Group.add_vm_template fs g tn =
      Except.error (PyErr.fileNotFoundError
        ("Cannot add nonexistent template " ++ tn)) := by
  simp [Group.add_vm_template, fsIterdirE, hdir, pyIn_str_path_list,
    exceptBind_ok]

/-- Claim C4, witness: the template `t` exists with its full tree under
the global directory and the group is empty, yet adding it fails. -/
theorem mockmox_C4_witness :
    Group.add_vm_template
        [(["vms"], Node.dir), (["vms", "t"], Node.dir),
         (["vms", "t", "t.qcow2"], Node.file "disk" 1),
         (["vms", "t", "t_config.yaml"], Node.file "ssh_port: 22" 2),
         (["groups"], Node.dir), (["groups", "g"], Node.dir),
         (["groups", "g", "snapshots"], Node.dir),
         (["groups", "g", "vm_templates"], Node.dir)]
        (Group.init "g" ["groups"] ["vms"]) "t" =
      Except.error (PyErr.fileNotFoundError "Cannot add nonexistent template t") :=
  mockmox_C4_addmember_never_materializes _ _ _ (by decide) (by decide)

/-- Claim C6: divergence.  Even when the template exists globally and the
group has no member of that name — the case in which the claim demands
success — `add_vm_template` fails with the `NotFound`
`FileNotFoundError` (the str-vs-Path guard), and in particular never
returns success. -/
theorem mockmox_C6_addmember_guard (fs : FS) (g : Group) (tn : String)
    (hdir : fsFind fs g.global_templates_dir = some Node.dir)
    (hglobal : fsPathExists fs (g.global_templates_dir ++ [tn]) = true)
    (hnomember : fsPathExists fs (g.vm_template_dir ++ [tn]) = false) :
    Group.add_vm_template fs g tn =
      Except.error (PyErr.fileNotFoundError
        ("Cannot add nonexistent template " ++ tn)) ∧
    ∀ fs2, Group.add_vm_template fs g tn ≠ Except.ok fs2 := by
  constructor
  · simp [Group.add_vm_template, fsIterdirE, hdir, pyIn_str_path_list,
      exceptBind_ok]
  · intro fs2 hcontra
    have heq : Group.add_vm_template fs g tn =
        Except.error (PyErr.fileNotFoundError
          ("Cannot add nonexistent template " ++ tn)) := by
      simp [Group.add_vm_template, fsIterdirE, hdir, pyIn_str_path_list,
        exceptBind_ok]
    rw [heq] at hcontra
    cases hcontra

/-- Claim C6, witness: template exists globally, group empty, add fails
and does not succeed. -/
theorem mockmox_C6_witness :
    Group.add_vm_template
        [(["vms"], Node.dir), (["vms", "u"], Node.dir),
         (["vms", "u", "u.qcow2"], Node.file "disk" 1),
         (["vms", "u", "u_config.yaml"], Node.file "" 2),
         (["groups"], Node.dir), (["groups", "h"], Node.dir),
         (["groups", "h", "snapshots"], Node.dir),
         (["groups", "h", "vm_templates"], Node.dir)]
        (Group.init "h" ["groups"] ["vms"]) "u" =
      Except.error (PyErr.fileNotFoundError "Cannot add nonexistent template u") ∧
    ∀ fs2, Group.add_vm_template
        [(["vms"], Node.dir), (["vms", "u"], Node.dir),
         (["vms", "u", "u.qcow2"], Node.file "disk" 1),
         (["vms", "u", "u_config.yaml"], Node.file "" 2),
         (["groups"], Node.dir), (["groups", "h"], Node.dir),
         (["groups", "h", "snapshots"], Node.dir),
         (["groups", "h", "vm_templates"], Node.dir)]
        (Group.init "h" ["groups"] ["vms"]) "u" ≠ Except.ok fs2 :=
  mockmox_C6_addmember_guard _ _ _ (by decide) (by decide) (by decide)

/-! ## Claim C7: runtime-name assignment in `VMTemplate.start` -/

/-- Claim C7: divergence.  When every name `<name>_0` .. `<name>_999` is
already taken under the active root, `VMTemplate.start` completes with no
exception (the claim demands `ExhaustedNamespace`), no filesystem change
and no assigned id: the for-loop falls through and the method body ends. -/
theorem mockmox_C7_start_exhausted (fs : FS) (t : VMTemplate) (active_dir : FsPath)
    (htaken : ∀ id, id < 1000 →
      (t.name ++ "_" ++ Nat.repr id) ∈ startTakenNames fs active_dir t.name) :
    VMTemplate.start fs t active_dir = (none, fs, none) := by
  have hfree : startFreeId (startTakenNames fs active_dir t.name) t.name = none := by
    rw [startFreeId]
    apply List.find?_eq_none.mpr
    intro id hid
    have hmem := htaken id (List.mem_range.mp hid)
    simpa using hmem
  show (startFreeId (startTakenNames fs active_dir t.name) t.name, fs, none) =
    (none, fs, none)
  rw [hfree]

/-- An active-instance root in which all 1000 suffixes of template `t`
are taken. -/
def exhaustedFS : FS :=
  (List.range 1000).map (fun id => (["active", "t_" ++ Nat.repr id], Node.dir))

/-- Claim C7, witness: with all 1000 suffixes taken, `start` returns
without error and without an id. -/
theorem mockmox_C7_witness :
    VMTemplate.start exhaustedFS
      { name := "t", path := ["vms", "t"],
        config_file := ["vms", "t", "t_config.yaml"],
        disk := ["vms", "t", "t.qcow2"],
        config := Yaml.dict [], ssh_port := Yaml.int 22 } ["active"] =
    (none, exhaustedFS, none) := by
  apply mockmox_C7_start_exhausted
  intro id hid
  show ("t" ++ "_" ++ Nat.repr id) ∈ startTakenNames exhaustedFS ["active"] "t"
  have hname : ("t" ++ "_" ++ Nat.repr id) = "t_" ++ Nat.repr id := rfl
  rw [hname, startTakenNames]
  apply List.mem_filter.mpr
  constructor
  · apply List.mem_map.mpr
    refine ⟨["active", "t_" ++ Nat.repr id], ?_, rfl⟩
    rw [fsIterdir]
    apply List.mem_filter.mpr
    constructor
    · apply List.mem_map.mpr
      refine ⟨(["active", "t_" ++ Nat.repr id], Node.dir), ?_, rfl⟩
      rw [exhaustedFS]
      apply List.mem_map.mpr
      exact ⟨id, List.mem_range.mpr hid, rfl⟩
    · simp [List.isPrefixOf]
  · simp only [String.data_append]
    simp [List.isPrefixOf_iff_prefix]

/-! ## Claim C9: `VMTemplate.edit` -/

theorem strNeAppendTmp (s : String) : s ++ ".tmp" ≠ s := by
  intro h
  have h2 := congrArg String.length h
  rw [String.length_append] at h2
  have h4 : (".tmp" : String).length = 4 := rfl
  rw [h4] at h2
  omega

theorem tmpPathNe (p : FsPath) (s : String) : p ++ [s ++ ".tmp"] ≠ p ++ [s] := by
  intro h
  have h2 := List.append_cancel_left h
  have h3 : s ++ ".tmp" = s := by
    injection h2
  exact strNeAppendTmp s h3

/-- Claim C9: `edit` duplicates the config to `<config>.tmp`, lets the
editor rewrite the copy, and parses the result.  On a parse error the
temporary file is removed, the call fails with `yaml.YAMLError`, and the
original config file still holds its old content and metadata; on parse
success the temporary file is renamed onto the config file, which then
holds exactly the edited content.  In both outcomes no temporary file
remains. -/
theorem mockmox_C9_edit_scoped (parse : String → Except String Yaml) (fs : FS)
    (t : VMTemplate) (cfname c : String) (m : Nat) (editorText : String) (em : Nat)
    (hcf : t.config_file = t.path ++ [cfname])
    (hconf : fsFind fs t.config_file = some (Node.file c m)) :
    (∀ e, parse editorText = Except.error e →
      ∃ fs3, VMTemplate.edit parse fs t editorText em =
          Except.error (PyErr.yamlError
            ("YAML error in config file; unable to apply " ++ e), fs3) ∧
        fsFind fs3 t.config_file = some (Node.file c m) ∧
        fsFind fs3 (t.path ++ [cfname ++ ".tmp"]) = none) ∧
    (∀ y, parse editorText = Except.ok y →
      ∃ fs4, VMTemplate.edit parse fs t editorText em = Except.ok fs4 ∧
        fsFind fs4 t.config_file = some (Node.file editorText em) ∧
        fsFind fs4 (t.path ++ [cfname ++ ".tmp"]) = none) := by
  have htmp0 : (t.config_file.getLastD "") = cfname := by
    rw [hcf, List.getLastD_concat]
  have hne : t.path ++ [cfname ++ ".tmp"] ≠ t.config_file := by
    rw [hcf]; exact tmpPathNe t.path cfname
  have hres : fsResolve fs t.config_file = t.config_file :=
    fsResolve_file fs _ c m hconf
  have hcopy : fsCopy2 fs t.config_file (t.path ++ [cfname ++ ".tmp"]) =
      Except.ok (fsSet fs (t.path ++ [cfname ++ ".tmp"]) (Node.file c m)) := by
    rw [fsCopy2, hres, hconf]
  constructor
  · intro e he
    have hedit : VMTemplate.edit parse fs t editorText em =
        Except.error (PyErr.yamlError
            ("YAML error in config file; unable to apply " ++ e),
          fsErase (fsSet (fsSet fs (t.path ++ [cfname ++ ".tmp"]) (Node.file c m))
              (t.path ++ [cfname ++ ".tmp"]) (Node.file editorText em))
            (t.path ++ [cfname ++ ".tmp"])) := by
      simp only [VMTemplate.edit, htmp0, hcopy, he]
    refine ⟨_, hedit, ?_, fsFind_erase_self _ _⟩
    rw [fsFind_erase_ne _ _ _ (Ne.symm hne),
      fsFind_set_ne _ _ _ _ (Ne.symm hne),
      fsFind_set_ne _ _ _ _ (Ne.symm hne)]
    exact hconf
  · intro y hy
    have hedit : VMTemplate.edit parse fs t editorText em =
        Except.ok (fsSet (fsErase
            (fsSet (fsSet fs (t.path ++ [cfname ++ ".tmp"]) (Node.file c m))
              (t.path ++ [cfname ++ ".tmp"]) (Node.file editorText em))
            (t.path ++ [cfname ++ ".tmp"]))
          t.config_file (Node.file editorText em)) := by
      simp only [VMTemplate.edit, htmp0, hcopy, hy]
    refine ⟨_, hedit, ?_, ?_⟩
    · exact fsFind_set_self _ _ _
    · rw [fsFind_set_ne _ _ _ _ hne, fsFind_erase_self]

/-- Claim C9, witness: a concrete template and a parser that rejects the
edited text `bad` and accepts `good`; both branches of the theorem are
instantiated. -/
theorem mockmox_C9_witness :
    (∀ e, (fun s => if s = "good" then Except.ok (Yaml.dict [])
        else Except.error "bad YAML") "newtext" = Except.error e →
      ∃ fs3, VMTemplate.edit
          (fun s => if s = "good" then Except.ok (Yaml.dict [])
            else Except.error "bad YAML")
          [(["vms"], Node.dir), (["vms", "t"], Node.dir),
           (["vms", "t", "t.qcow2"], Node.file "disk" 1),
           (["vms", "t", "t_config.yaml"], Node.file "old" 5)]
          { name := "t", path := ["vms", "t"],
            config_file := ["vms", "t", "t_config.yaml"],
            disk := ["vms", "t", "t.qcow2"],
            config := Yaml.dict [], ssh_port := Yaml.int 22 } "newtext" 7 =
          Except.error (PyErr.yamlError
            ("YAML error in config file; unable to apply " ++ e), fs3) ∧
        fsFind fs3 (["vms", "t"] ++ ["t_config.yaml"] : FsPath) =
          some (Node.file "old" 5) ∧
        fsFind fs3 (["vms", "t"] ++ ["t_config.yaml" ++ ".tmp"]) = none) ∧
    (∀ y, (fun s => if s = "good" then Except.ok (Yaml.dict [])
        else Except.error "bad YAML") "newtext" = Except.ok y →
      ∃ fs4, VMTemplate.edit
          (fun s => if s = "good" then Except.ok (Yaml.dict [])
            else Except.error "bad YAML")
          [(["vms"], Node.dir), (["vms", "t"], Node.dir),
           (["vms", "t", "t.qcow2"], Node.file "disk" 1),
           (["vms", "t", "t_config.yaml"], Node.file "old" 5)]
          { name := "t", path := ["vms", "t"],
            config_file := ["vms", "t", "t_config.yaml"],
            disk := ["vms", "t", "t.qcow2"],
            config := Yaml.dict [], ssh_port := Yaml.int 22 } "newtext" 7 =
          Except.ok fs4 ∧
        fsFind fs4 (["vms", "t"] ++ ["t_config.yaml"] : FsPath) =
          some (Node.file "newtext" 7) ∧
        fsFind fs4 (["vms", "t"] ++ ["t_config.yaml" ++ ".tmp"]) = none) := by
  have h := mockmox_C9_edit_scoped
    (fun s => if s = "good" then Except.ok (Yaml.dict [])
      else Except.error "bad YAML")
    [(["vms"], Node.dir), (["vms", "t"], Node.dir),
     (["vms", "t", "t.qcow2"], Node.file "disk" 1),
     (["vms", "t", "t_config.yaml"], Node.file "old" 5)]
    { name := "t", path := ["vms", "t"],
      config_file := ["vms", "t", "t_config.yaml"],
      disk := ["vms", "t", "t.qcow2"],
      config := Yaml.dict [], ssh_port := Yaml.int 22 }
    "t_config.yaml" "old" 5 "newtext" 7 rfl (by decide)
  exact h

/-! ## Injectivity of the decimal rendering `Nat.repr`

Needed for claim C8: distinct clock readings give distinct instance-name
candidates.  `Nat.repr` is related to `Nat.digits` and injectivity follows
from `Nat.ofDigits_digits`. -/

theorem toDigitsCore_eq_digits (n : Nat) :
    ∀ (fuel : Nat) (acc : List Char), 0 < n → n ≤ fuel →
      Nat.toDigitsCore 10 fuel n acc =
        ((Nat.digits 10 n).map Nat.digitChar).reverse ++ acc := by
  induction n using Nat.strong_induction_on with
  | _ n ih =>
    intro fuel acc hn hfuel
    cases fuel with
    | zero => omega
    | succ f =>
      rw [Nat.toDigitsCore]
      by_cases h10 : n / 10 = 0
      · have hdig : Nat.digits 10 n = [n % 10] := by
          rw [Nat.digits_def' (by norm_num : (1 : Nat) < 10) hn, h10, Nat.digits_zero]
        simp [h10, hdig]
      · have hlt : n / 10 < n := Nat.div_lt_self hn (by norm_num)
        have hle : n / 10 ≤ f := by omega
        have hpos : 0 < n / 10 := Nat.pos_of_ne_zero h10
        simp only [h10, if_false]
        rw [ih (n / 10) hlt f (Nat.digitChar (n % 10) :: acc) hpos hle]
        rw [Nat.digits_def' (by norm_num : (1 : Nat) < 10) hn]
        rw [List.map_cons, List.reverse_cons, List.append_assoc,
          List.singleton_append]

theorem natRepr_eq_digits (n : Nat) (h : 0 < n) :
    Nat.repr n = (((Nat.digits 10 n).map Nat.digitChar).reverse).asString := by
  show (Nat.toDigits 10 n).asString = _
  rw [Nat.toDigits, toDigitsCore_eq_digits n (n + 1) [] h (Nat.le_succ n),
    List.append_nil]

theorem asString_inj (l1 l2 : List Char) (h : l1.asString = l2.asString) :
    l1 = l2 :=
  congrArg String.data h

theorem digitChar_inj_lt :
    ∀ a, a < 10 → ∀ b, b < 10 → Nat.digitChar a = Nat.digitChar b → a = b := by
  decide

theorem map_digitChar_inj :
    ∀ (l1 l2 : List Nat), (∀ x ∈ l1, x < 10) → (∀ x ∈ l2, x < 10) →
      l1.map Nat.digitChar = l2.map Nat.digitChar → l1 = l2 := by
  intro l1
  induction l1 with
  | nil =>
    intro l2 _ _ h
    cases l2 with
    | nil => rfl
    | cons b t2 => cases h
  | cons a t1 ih =>
    intro l2 h1 h2 h
    cases l2 with
    | nil => cases h
    | cons b t2 =>
      rw [List.map_cons, List.map_cons] at h
      have hhead : Nat.digitChar a = Nat.digitChar b := (List.cons.injEq _ _ _ _).mp h |>.1
      have htail : t1.map Nat.digitChar = t2.map Nat.digitChar :=
        (List.cons.injEq _ _ _ _).mp h |>.2
      have ha : a < 10 := h1 a (List.mem_cons_self a t1)
      have hb : b < 10 := h2 b (List.mem_cons_self b t2)
      rw [digitChar_inj_lt a ha b hb hhead,
        ih t2 (fun x hx => h1 x (List.mem_cons_of_mem a hx))
          (fun x hx => h2 x (List.mem_cons_of_mem b hx)) htail]

theorem natRepr_pos_ne_zero_repr (b : Nat) (hb : 0 < b) :
    Nat.repr b ≠ Nat.repr 0 := by
  intro h
  rw [natRepr_eq_digits b hb] at h
  have h0 : Nat.repr 0 = (['0'] : List Char).asString := rfl
  rw [h0] at h
  have hlist := asString_inj _ _ h
  have hrev : (Nat.digits 10 b).map Nat.digitChar = ['0'] := by
    have := congrArg List.reverse hlist
    simpa using this
  have hdig : Nat.digits 10 b = [0] := by
    cases hd : Nat.digits 10 b with
    | nil => rw [hd] at hrev; cases hrev
    | cons d t =>
      rw [hd, List.map_cons] at hrev
      have hdd : Nat.digitChar d = '0' ∧ t.map Nat.digitChar = [] :=
        (List.cons.injEq _ _ _ _).mp hrev
      have ht : t = [] := List.map_eq_nil_iff.mp hdd.2
      have hdlt : d < 10 := by
        apply Nat.digits_lt_base (by norm_num : (1 : Nat) < 10)
        rw [hd]; exact List.mem_cons_self d t
      have : d = 0 := digitChar_inj_lt d hdlt 0 (by norm_num) hdd.1
      rw [ht, this]
  have hb0 := congrArg (Nat.ofDigits 10) hdig
  rw [Nat.ofDigits_digits] at hb0
  have : b = 0 := by simpa [Nat.ofDigits_cons, Nat.ofDigits_nil] using hb0
  omega

theorem natRepr_injective : Function.Injective Nat.repr := by
  intro a b h
  rcases Nat.eq_zero_or_pos a with ha | ha
  · rcases Nat.eq_zero_or_pos b with hb | hb
    · rw [ha, hb]
    · subst ha
      exact absurd h.symm (natRepr_pos_ne_zero_repr b hb)
  · rcases Nat.eq_zero_or_pos b with hb | hb
    · subst hb
      exact absurd h (natRepr_pos_ne_zero_repr a ha)
    · rw [natRepr_eq_digits a ha, natRepr_eq_digits b hb] at h
      have hlist := List.reverse_injective (asString_inj _ _ h)
      have hdig : Nat.digits 10 a = Nat.digits 10 b :=
        map_digitChar_inj _ _
          (fun x hx => Nat.digits_lt_base (by norm_num) hx)
          (fun x hx => Nat.digits_lt_base (by norm_num) hx) hlist
      have := congrArg (Nat.ofDigits 10) hdig
      rwa [Nat.ofDigits_digits, Nat.ofDigits_digits] at this

/-! ## Claim C8: the instance-name retry loop -/

theorem strAppendLeftCancel (a x y : String) (h : a ++ x = a ++ y) : x = y := by
  have hd := congrArg String.data h
  rw [String.data_append, String.data_append] at hd
  have h2 := List.append_cancel_left hd
  cases x with
  | mk xd =>
    cases y with
    | mk yd => exact congrArg String.mk h2

/-- Whenever the retry loop returns a name, that name's directory does not
exist: the loop only stops at a candidate failing the `exists` test. -/
theorem instanceFindName_free (fs : FS) (dir : FsPath) (g : String)
    (secs : Nat → Nat) (frac : String) :
    ∀ (fuel i : Nat) (n : String),
      instanceFindName fs dir g secs frac fuel i = some n →
      fsPathExists fs (dir ++ [n]) = false := by
  intro fuel
  induction fuel with
  | zero => intro i n h; cases h
  | succ f ih =>
    intro i n h
    rw [instanceFindName] at h
    by_cases hex : fsPathExists fs (dir ++ [instanceCandidate g secs frac i]) = true
    · simp only [hex, if_true] at h
      exact ih (i + 1) n h
    · have hex2 : fsPathExists fs (dir ++ [instanceCandidate g secs frac i]) = false :=
        Bool.eq_false_iff.mpr hex
      simp only [hex2, Bool.false_eq_true, if_false] at h
      injection h with h2
      rw [← h2]
      exact hex2

/-- If some candidate within the fuel bound is free, the retry loop
terminates with a name. -/
theorem instanceFindName_terminates (fs : FS) (dir : FsPath) (g : String)
    (secs : Nat → Nat) (frac : String) :
    ∀ (fuel i : Nat),
      (∃ k, k < fuel ∧
        fsPathExists fs (dir ++ [instanceCandidate g secs frac (i + k)]) = false) →
      ∃ n, instanceFindName fs dir g secs frac fuel i = some n := by
  intro fuel
  induction fuel with
  | zero =>
    rintro i ⟨k, hk, _⟩
    omega
  | succ f ih =>
    rintro i ⟨k, hk, hfree⟩
    rw [instanceFindName]
    by_cases hex : fsPathExists fs (dir ++ [instanceCandidate g secs frac i]) = true
    · simp only [hex, if_true]
      apply ih (i + 1)
      cases k with
      | zero =>
        rw [Nat.add_zero] at hfree
        rw [hfree] at hex
        cases hex
      | succ k2 =>
        refine ⟨k2, by omega, ?_⟩
        have harith : i + 1 + k2 = i + (k2 + 1) := by omega
        rw [harith]
        exact hfree
    · have hex2 : fsPathExists fs (dir ++ [instanceCandidate g secs frac i]) = false :=
        Bool.eq_false_iff.mpr hex
      simp only [hex2, Bool.false_eq_true, if_false]
      exact ⟨_, rfl⟩

/-- Claim C8: under a wall clock whose integer-seconds readings are
unbounded (they grow without bound as real time passes), the
`Instance.start` name-retry loop terminates for EVERY state of the
instance directory: some fuel makes it return a name, that name's
directory does not exist, and the name differs from every entry already
under the instance root.  The generated names are built from the group
name and a timestamp, retried with the incremented reading
`int(timestamp) + 1`. -/
theorem mockmox_C8_instance_name (fs : FS) (instance_dir : FsPath)
    (group_name : String) (secs : Nat → Nat) (frac : String)
    (hunb : ∀ B, ∃ j, B < secs j) :
    ∃ fuel name,
      instanceFindName fs instance_dir group_name secs frac fuel 0 = some name ∧
      fsPathExists fs (instance_dir ++ [name]) = false ∧
      ∀ q ∈ fsIterdir fs instance_dir, q ≠ instance_dir ++ [name] := by
  -- Readings at positive call indices are also unbounded.
  have hunb2 : ∀ B, ∃ j, B < secs (j + 1) := by
    intro B
    obtain ⟨j, hj⟩ := hunb (max B (secs 0))
    have hj0 : j ≠ 0 := by
      intro h0
      rw [h0] at hj
      exact absurd (le_max_right B (secs 0)) (not_le.mpr hj)
    obtain ⟨j2, rfl⟩ := Nat.exists_eq_succ_of_ne_zero hj0
    exact ⟨j2, lt_of_le_of_lt (le_max_left _ _) hj⟩
  choose pick hpick using hunb2
  -- A sequence of call indices with strictly increasing readings.
  obtain ⟨F, hF⟩ : ∃ F : Nat → Nat,
      ∀ n, F (n + 1) = pick (secs (F n + 1)) :=
    ⟨fun n => Nat.rec (pick 0) (fun _ prev => pick (secs (prev + 1))) n,
      fun n => rfl⟩
  have hstep : ∀ n, secs (F n + 1) < secs (F (n + 1) + 1) := by
    intro n
    rw [hF n]
    exact hpick (secs (F n + 1))
  have hmono : StrictMono (fun n => secs (F n + 1)) :=
    strictMono_nat_of_lt_succ hstep
  -- The corresponding retry candidates are pairwise distinct names.
  have hcinj : Function.Injective
      (fun n => instanceCandidate group_name secs frac (F n + 1)) := by
    intro x y hxy
    have hxy2 : group_name ++ "-" ++ Nat.repr (secs (F x + 1) + 1) =
        group_name ++ "-" ++ Nat.repr (secs (F y + 1) + 1) := hxy
    rw [String.append_assoc, String.append_assoc] at hxy2
    have h3 := strAppendLeftCancel _ _ _ hxy2
    have h4 := strAppendLeftCancel _ _ _ h3
    have h5 := natRepr_injective h4
    exact hmono.injective (by omega)
  -- Pigeonhole: not all of the first `fs.length + 1` candidates can name
  -- an existing entry.
  have hfreecand : ∃ n, n ≤ fs.length ∧
      fsPathExists fs (instance_dir ++
        [instanceCandidate group_name secs frac (F n + 1)]) = false := by
    by_contra hall
    push_neg at hall
    have hall2 : ∀ n, n ≤ fs.length →
        fsPathExists fs (instance_dir ++
          [instanceCandidate group_name secs frac (F n + 1)]) = true := by
      intro n hn
      have := hall n hn
      cases hb : fsPathExists fs (instance_dir ++
          [instanceCandidate group_name secs frac (F n + 1)]) with
      | false => exact absurd hb this
      | true => rfl
    have hmaps : ∀ x : Fin (fs.length + 1),
        (instance_dir ++ [instanceCandidate group_name secs frac (F x.val + 1)]) ∈
          (fs.map (fun e => e.1)).toFinset := by
      intro x
      rw [List.mem_toFinset]
      exact (fsPathExists_iff_mem fs _).mp (hall2 x.val (Nat.lt_succ_iff.mp x.isLt))
    have hinj : Set.InjOn
        (fun x : Fin (fs.length + 1) =>
          instance_dir ++ [instanceCandidate group_name secs frac (F x.val + 1)])
        (Finset.univ : Finset (Fin (fs.length + 1))) := by
      intro x _ y _ hxy
      have h2 := List.append_cancel_left hxy
      have h3 : instanceCandidate group_name secs frac (F x.val + 1) =
          instanceCandidate group_name secs frac (F y.val + 1) := by
        injection h2
      have := hcinj h3
      exact Fin.ext this
    have hcard := Finset.card_le_card_of_injOn _
      (fun x _ => hmaps x) hinj
    rw [Finset.card_univ, Fintype.card_fin] at hcard
    have hcard2 : ((fs.map (fun e => e.1)).toFinset).card ≤ fs.length := by
      calc ((fs.map (fun e => e.1)).toFinset).card
        ≤ (fs.map (fun e => e.1)).length := List.toFinset_card_le _
        _ = fs.length := List.length_map _ _
    omega
  obtain ⟨n, hn, hfree⟩ := hfreecand
  obtain ⟨name, hname⟩ :=
    instanceFindName_terminates fs instance_dir group_name secs frac
      (F n + 2) 0
      ⟨F n + 1, by omega, by rw [Nat.zero_add]; exact hfree⟩
  refine ⟨F n + 2, name, hname, ?_, ?_⟩
  · exact instanceFindName_free fs instance_dir group_name secs frac _ _ _ hname
  · intro q hq hqe
    have hfree2 := instanceFindName_free fs instance_dir group_name secs frac _ _ _ hname
    have hqmem : q ∈ fs.map (fun e => e.1) := (List.mem_filter.mp hq).1
    rw [hqe] at hqmem
    have := (fsPathExists_iff_mem fs _).mpr hqmem
    rw [hfree2] at this
    cases this

/-- Claim C8, witness: identity clock, empty instance directory — the
loop terminates with a fresh name. -/
theorem mockmox_C8_witness :
    ∃ fuel name,
      instanceFindName [] ["instances"] "g" (fun i => i) "25" fuel 0 = some name ∧
      fsPathExists [] (["instances"] ++ [name]) = false ∧
      ∀ q ∈ fsIterdir [] ["instances"], q ≠ ["instances"] ++ [name] :=
  mockmox_C8_instance_name [] ["instances"] "g" (fun i => i) "25"
    (fun B => ⟨B + 1, Nat.lt_succ_self B⟩)

end Mockmox
